import Mathlib

set_option maxRecDepth 8000

/-- Role of a chat message, from the Message interface in app.component.ts. -/
inductive Role
  | user
  | model
  deriving DecidableEq

/-- A chat message, from the Message interface in app.component.ts. -/
structure Message where
  role : Role
  text : String
  deriving DecidableEq

/-- A placement-test question, from the QuizQuestion interface. -/
structure QuizQuestion where
  question : String
  options : List String
  correct_answer : String
  deriving DecidableEq

/-- A vocabulary-quiz question: QuizQuestion extended with a definition field. -/
structure VocabularyQuizQuestion where
  question : String
  options : List String
  correct_answer : String
  definition : String
  deriving DecidableEq

/-- One entry of the wordsToReview list in the QuizResultSummary interface. -/
structure ReviewItem where
  question : String
  yourAnswer : Option String
  correctAnswer : String
  definition : String
  deriving DecidableEq

/-- The QuizResultSummary interface. -/
structure QuizResultSummary where
  score : Nat
  total : Nat
  feedback : String
  wordsToReview : List ReviewItem
  deriving DecidableEq

/-- The EnglishLevel union type: the three proficiency levels allowed by the
evaluation response schema. -/
inductive EnglishLevel
  | Beginner
  | Intermediate
  | Advanced
  deriving DecidableEq

/-- The TestResult interface: a successfully parsed evaluation response, whose
level field is constrained by the response schema to the three levels. -/
structure TestResult where
  level : EnglishLevel
  feedback : String
  deriving DecidableEq

/-- The PlacementTestState union type. -/
inductive PlacementTestState
  | generating
  | taking
  | evaluating
  | results
  deriving DecidableEq

/-- The VocabularyQuizState union type. -/
inductive VocabularyQuizState
  | generating
  | taking
  | results
  deriving DecidableEq

/-- The AppState union type. -/
inductive AppState
  | loading
  | languageSelection
  | onboarding
  | placementTest
  | home
  | chatting
  | vocabularyQuiz
  deriving DecidableEq

/-- One element of the questionsAndAnswers payload built in evaluateTest. -/
structure QAPair where
  question : String
  correct_answer : String
  user_answer : Option String
  deriving DecidableEq

/-- Record of one evaluation request sent to the model gateway: the placement
sub-state at the moment of the call and the payload of the request. -/
structure EvalCall where
  stateAtCall : PlacementTestState
  payload : List QAPair
  deriving DecidableEq

/-- The context argument of handleError. -/
inductive ErrorContext
  | chat
  | home
  deriving DecidableEq

/-- The outcome of one chat streaming request against the model gateway: it
either delivers a finite list of text fragments, or throws before the stream
starts, or throws during iteration after delivering a prefix of fragments. -/
inductive ChatStreamOutcome
  | ok (chunks : List String)
  | errBefore (message : String)
  | errDuring (chunks : List String) (message : String)
  deriving DecidableEq

/-- The component state: the signals of the AppComponent class in
app.component.ts, together with the browser-storage entries the component
reads and writes (storedChatHistory, storedEnglishLevel), whether the API key
is configured, a counter of chat sessions created, and a trace of the
evaluation requests sent to the model gateway. -/
structure AppComponent where
  appState : AppState
  userName : String
  messages : List Message
  userInput : String
  isLoading : Bool
  error : Option String
  homeError : Option String
  englishLevel : Option EnglishLevel
  placementTestState : PlacementTestState
  testQuestions : List QuizQuestion
  currentQuestionIndex : Nat
  userAnswers : List (Option String)
  selectedAnswer : Option String
  testResult : Option TestResult
  vocabularyQuizState : VocabularyQuizState
  vocabularyQuestions : List VocabularyQuizQuestion
  currentVocabularyQuestionIndex : Nat
  selectedVocabularyAnswer : Option String
  userVocabularyAnswers : List (Option String)
  vocabularyQuizResult : Option QuizResultSummary
  isAnswerChecked : Bool
  storedChatHistory : Option (List Message)
  storedEnglishLevel : Option EnglishLevel
  apiKeyConfigured : Bool
  chatSessionsCreated : Nat
  sentEvalRequests : List EvalCall
  deriving DecidableEq

/-- Concatenation of a finite list of streamed text fragments in receipt
order, as accumulated by the streaming loops of app.component.ts. -/
def joinFrags : List String → String
  | [] => ("")
  | c :: rest => c ++ joinFrags rest

/-- Models the JavaScript trim call used in the guards of app.component.ts:
removes leading and trailing whitespace characters. -/
def jsTrim (s : String) : String :=
  String.mk (((s.data.dropWhile Char.isWhitespace).reverse.dropWhile Char.isWhitespace).reverse)

/-- Overwriting the text of the last element of the message list, as done by
the statement assigning to the text of the last message while streaming. -/
def setLastText : List Message → String → List Message
  | [], _ => []
  | [m], t => [{ m with text := t }]
  | m :: m2 :: rest, t => m :: setLastText (m2 :: rest) t

/-- Overwriting the text of the first element of the message list, as done by
the greeting stream loop of the chat initialization. -/
def setFirstText : List Message → String → List Message
  | [], _ => []
  | m :: rest, t => { m with text := t } :: rest

/-- The streaming loop of sendMessage: for each chunk the accumulated text
grows by the chunk and is written into the last message of the list. -/
def applyStream (msgs : List Message) (acc : String) : List String → List Message
  | [] => msgs
  | c :: rest => applyStream (setLastText msgs (acc ++ c)) (acc ++ c) rest

/-- The greeting stream loop of the chat initialization: for each chunk the
accumulated text grows by the chunk and is written into the first message. -/
def applyStreamFirst (msgs : List Message) (acc : String) : List String → List Message
  | [] => msgs
  | c :: rest => applyStreamFirst (setFirstText msgs (acc ++ c)) (acc ++ c) rest

/-- The chatHistory persistence effect of the constructor: whenever the
message list is non-empty, it is written to the chatHistory storage entry. -/
def persistChatHistory (s : AppComponent) : AppComponent :=
  if s.messages.length > 0 then { s with storedChatHistory := some s.messages } else s

/-- The private handleError method: chat context sets the chat error and
filters every message whose text is the empty string out of the message list;
home context only sets the home error banner. -/
def handleError (s : AppComponent) (message : String) (context : ErrorContext) : AppComponent :=
  let errorMessage := ("Failed to get response from AI. ") ++ message
  match context with
  | ErrorContext.home => { s with homeError := some errorMessage }
  | ErrorContext.chat =>
      { s with error := some errorMessage,
               messages := s.messages.filter (fun m => m.text != ("")) }

/-- The sendMessage method: guarded by the trimmed input being non-empty and
the loading flag being clear; appends the user message, clears the input,
raises the loading flag, appends an empty placeholder model message, streams
fragments into it, and on failure runs handleError in chat context; the
loading flag is cleared at the end and the persistence effect runs. -/
def sendMessage (s : AppComponent) (outcome : ChatStreamOutcome) : AppComponent :=
  if jsTrim s.userInput = ("") ∨ s.isLoading = true then s
  else
    let userMessageText := s.userInput
    let s1 : AppComponent :=
      { s with messages := s.messages ++ [⟨Role.user, userMessageText⟩],
               userInput := (""), isLoading := true, error := none }
    let s2 : AppComponent :=
      match outcome with
      | ChatStreamOutcome.ok chunks =>
          { s1 with messages := applyStream (s1.messages ++ [⟨Role.model, ("")⟩]) ("") chunks }
      | ChatStreamOutcome.errBefore m => handleError s1 m ErrorContext.chat
      | ChatStreamOutcome.errDuring chunks m =>
          handleError
            { s1 with messages := applyStream (s1.messages ++ [⟨Role.model, ("")⟩]) ("") chunks }
            m ErrorContext.chat
    persistChatHistory { s2 with isLoading := false }

/-- Models the initializeChat method: after the API-key guard a new chat
session is created; if a non-empty chatHistory entry is stored the message
list is set from it, otherwise the greeting stream writes its fragments into
a fresh single-element message list; the persistence effect runs at the end. -/
def initChat (s : AppComponent) (greetChunks : List String) : AppComponent :=
  if s.apiKeyConfigured = false then
    { s with error := some ("API key not configured. Please set API_KEY.") }
  else
    let s1 : AppComponent := { s with chatSessionsCreated := s.chatSessionsCreated + 1 }
    match s1.storedChatHistory with
    | some h =>
        if h.length > 0 then persistChatHistory { s1 with messages := h }
        else
          persistChatHistory
            { s1 with isLoading := false,
                      messages := applyStreamFirst [⟨Role.model, ("")⟩] ("") greetChunks }
    | none =>
        persistChatHistory
          { s1 with isLoading := false,
                    messages := applyStreamFirst [⟨Role.model, ("")⟩] ("") greetChunks }

/-- The clearChat method: when the confirmation dialog is accepted, the
message list is emptied and the chatHistory storage entry removed, and only
then a new chat session is initialized. -/
def clearChat (s : AppComponent) (confirmed : Bool) (greetChunks : List String) : AppComponent :=
  if confirmed then
    initChat { s with messages := [], storedChatHistory := none } greetChunks
  else s

/-- The selectAnswer method of the placement test. -/
def selectAnswer (s : AppComponent) (answer : String) : AppComponent :=
  { s with selectedAnswer := some answer }

/-- The index-carrying map of evaluateTest building the questionsAndAnswers
payload: one triple per question, reading the user answer at the same index
(missing entries read as null). -/
def qaAux : List QuizQuestion → List (Option String) → Nat → List QAPair
  | [], _, _ => []
  | q :: rest, answers, i =>
      ⟨q.question, q.correct_answer, answers.getD i none⟩ :: qaAux rest answers (i + 1)

/-- The questionsAndAnswers payload of evaluateTest. -/
def questionsAndAnswers (qs : List QuizQuestion) (answers : List (Option String)) : List QAPair :=
  qaAux qs answers 0

/-- The evaluateTest method: enters the evaluating sub-state, clears the home
error, sends the questionsAndAnswers payload to the model gateway (recorded
in the trace), and either stores the returned level and enters results, or on
failure runs handleError in home context and reverts to taking. -/
def evaluateTest (s : AppComponent) (gw : Except String TestResult) : AppComponent :=
  let s1 : AppComponent := { s with placementTestState := PlacementTestState.evaluating,
                                    homeError := none }
  let req : List QAPair := questionsAndAnswers s1.testQuestions s1.userAnswers
  let s2 : AppComponent :=
    { s1 with sentEvalRequests := s1.sentEvalRequests ++ [⟨s1.placementTestState, req⟩] }
  match gw with
  | Except.ok result =>
      { s2 with testResult := some result,
                englishLevel := some result.level,
                storedEnglishLevel := some result.level,
                placementTestState := PlacementTestState.results }
  | Except.error m =>
      { handleError s2 m ErrorContext.home with placementTestState := PlacementTestState.taking }

/-- The submitAnswer method: a falsy selected answer (null or the empty
string) makes it return immediately; otherwise the selection is appended to
the answer list and either the index advances with the selection reset, or on
the last question evaluateTest runs. -/
def submitAnswer (s : AppComponent) (gw : Except String TestResult) : AppComponent :=
  match s.selectedAnswer with
  | none => s
  | some a =>
      if a = ("") then s
      else
        let s1 : AppComponent := { s with userAnswers := s.userAnswers ++ [some a] }
        if s1.currentQuestionIndex < s1.testQuestions.length - 1 then
          { s1 with currentQuestionIndex := s1.currentQuestionIndex + 1, selectedAnswer := none }
        else
          evaluateTest s1 gw

/-- Driver for the taking sub-state: answer the questions one after the other,
each time selecting an answer and then submitting it. -/
def runPlacement (gw : Except String TestResult) : AppComponent → List String → AppComponent
  | s, [] => s
  | s, a :: rest => runPlacement gw (submitAnswer (selectAnswer s a) gw) rest

/-- The selectVocabularyAnswer method: once the current answer is checked the
call returns immediately; otherwise the selection is stored and locked. -/
def selectVocabularyAnswer (s : AppComponent) (answer : String) : AppComponent :=
  if s.isAnswerChecked then s
  else { s with selectedVocabularyAnswer := some answer, isAnswerChecked := true }

/-- The scoring loop of showVocabularyQuizResults: for each question, the
user answer at the same index (missing entries read as null) either matches
the correct answer exactly and counts into the score, or the question is
collected into the review list with the given answer and its definition. -/
def scoreAux : List VocabularyQuizQuestion → List (Option String) → Nat → Nat × List ReviewItem
  | [], _, _ => (0, [])
  | q :: rest, answers, i =>
      let userAnswer := answers.getD i none
      let prev := scoreAux rest answers (i + 1)
      if some q.correct_answer = userAnswer then (prev.1 + 1, prev.2)
      else (prev.1, ⟨q.question, userAnswer, q.correct_answer, q.definition⟩ :: prev.2)

/-- The showVocabularyQuizResults method: scores the quiz, asks the gateway
for a feedback sentence (falling back to a fixed sentence on failure), and
stores the summary while entering the results sub-state. -/
def showVocabularyQuizResults (s : AppComponent) (fo : Except String String) : AppComponent :=
  let questions := s.vocabularyQuestions
  let scored := scoreAux questions s.userVocabularyAnswers 0
  let feedback :=
    match fo with
    | Except.ok f => jsTrim f
    | Except.error _ =>
        ("Good job! You got ") ++ toString scored.1 ++ (" out of ") ++
          toString questions.length ++ (".")
  { s with vocabularyQuizResult :=
             some ⟨scored.1, questions.length, feedback, scored.2⟩,
           vocabularyQuizState := VocabularyQuizState.results }

/-- The nextVocabularyQuestion method: appends the current selection to the
answer list and, before the last question, advances the index and releases
the answer lock; on the last question it shows the results. -/
def nextVocabularyQuestion (s : AppComponent) (fo : Except String String) : AppComponent :=
  let s1 : AppComponent :=
    { s with userVocabularyAnswers := s.userVocabularyAnswers ++ [s.selectedVocabularyAnswer] }
  if s1.currentVocabularyQuestionIndex < s1.vocabularyQuestions.length - 1 then
    { s1 with currentVocabularyQuestionIndex := s1.currentVocabularyQuestionIndex + 1,
              selectedVocabularyAnswer := none, isAnswerChecked := false }
  else
    showVocabularyQuizResults s1 fo

/-- Placeholder vocabulary question used as the default of list lookups in
statements about question indices. -/
def blankVocabQuestion : VocabularyQuizQuestion :=
  ⟨(""), [], (""), ("")⟩

/-- A fully concrete component state used as the base of the concrete
witnesses below. -/
def baseState : AppComponent where
  appState := AppState.loading
  userName := ("")
  messages := []
  userInput := ("")
  isLoading := false
  error := none
  homeError := none
  englishLevel := none
  placementTestState := PlacementTestState.generating
  testQuestions := []
  currentQuestionIndex := 0
  userAnswers := []
  selectedAnswer := none
  testResult := none
  vocabularyQuizState := VocabularyQuizState.generating
  vocabularyQuestions := []
  currentVocabularyQuestionIndex := 0
  selectedVocabularyAnswer := none
  userVocabularyAnswers := []
  vocabularyQuizResult := none
  isAnswerChecked := false
  storedChatHistory := none
  storedEnglishLevel := none
  apiKeyConfigured := true
  chatSessionsCreated := 0
  sentEvalRequests := []

/-- A five-question placement test with all correct answers at option B,
matching the scenario of the specification. -/
def sampleQuestions : List QuizQuestion :=
  [⟨("Q1"), [("A1"), ("B1"), ("C1"), ("D1")], ("B1")⟩,
   ⟨("Q2"), [("A2"), ("B2"), ("C2"), ("D2")], ("B2")⟩,
   ⟨("Q3"), [("A3"), ("B3"), ("C3"), ("D3")], ("B3")⟩,
   ⟨("Q4"), [("A4"), ("B4"), ("C4"), ("D4")], ("B4")⟩,
   ⟨("Q5"), [("A5"), ("B5"), ("C5"), ("D5")], ("B5")⟩]

/-- The answers of the scenario: the B option of every question. -/
def answersB : List String :=
  [("B1"), ("B2"), ("B3"), ("B4"), ("B5")]

/-- A concrete state at the start of the taking sub-state of the placement
test over the five sample questions. -/
def placementStart : AppComponent :=
  { baseState with appState := AppState.placementTest,
                   placementTestState := PlacementTestState.taking,
                   testQuestions := sampleQuestions }

/-- A concrete five-question vocabulary quiz. -/
def sampleVocabQuestions : List VocabularyQuizQuestion :=
  [⟨("VQ1"), [("a1"), ("b1"), ("c1"), ("d1")], ("a1"), ("def1")⟩,
   ⟨("VQ2"), [("a2"), ("b2"), ("c2"), ("d2")], ("a2"), ("def2")⟩,
   ⟨("VQ3"), [("a3"), ("b3"), ("c3"), ("d3")], ("a3"), ("def3")⟩,
   ⟨("VQ4"), [("a4"), ("b4"), ("c4"), ("d4")], ("a4"), ("def4")⟩,
   ⟨("VQ5"), [("a5"), ("b5"), ("c5"), ("d5")], ("a5"), ("def5")⟩]

/-- A concrete state at the end of the vocabulary quiz over the five sample
questions, with three matching answers and two wrong or missing ones. -/
def vocabEnd : AppComponent :=
  { baseState with appState := AppState.vocabularyQuiz,
                   vocabularyQuizState := VocabularyQuizState.taking,
                   vocabularyQuestions := sampleVocabQuestions,
                   userVocabularyAnswers :=
                     [some ("a1"), some ("a2"), some ("b3"), some ("a4"), none] }

/-- A concrete state ready to send a chat message. -/
def chatReady : AppComponent :=
  { baseState with appState := AppState.chatting,
                   userInput := ("Hello"),
                   messages := [⟨Role.model, ("Welcome")⟩] }

/-- The empty string is a left identity of string append. -/
theorem str_empty_append (s : String) : ("") ++ s = s := by
  cases s
  rfl

/-- Overwriting the last text of a list ending in a known message rewrites
exactly that message. -/
theorem setLastText_append (ms : List Message) (mm : Message) (t : String) :
    setLastText (ms ++ [mm]) t = ms ++ [{ mm with text := t }] := by
  induction ms with
  | nil => simp [setLastText]
  | cons a ms ih =>
      cases ms with
      | nil => simp [setLastText]
      | cons b ms2 =>
          simp only [List.cons_append, setLastText, List.append_eq] at ih ⊢
          rw [ih]

/-- The streaming loop grows the text of the final message, already holding
the accumulated text, by the concatenation of the remaining fragments. -/
theorem applyStream_append (chunks : List String) :
    ∀ (ms : List Message) (r : Role) (acc : String),
      applyStream (ms ++ [⟨r, acc⟩]) acc chunks = ms ++ [⟨r, acc ++ joinFrags chunks⟩] := by
  induction chunks with
  | nil =>
      intro ms r acc
      simp [applyStream, joinFrags, String.append_empty]
  | cons c rest ih =>
      intro ms r acc
      simp only [applyStream, joinFrags]
      rw [setLastText_append]
      have h := ih ms r (acc ++ c)
      simp only [h, String.append_assoc]

/-- The greeting stream loop on a single message holding the accumulated text
produces a single message holding the concatenation of all fragments. -/
theorem applyStreamFirst_singleton (chunks : List String) :
    ∀ (r : Role) (acc : String),
      applyStreamFirst [⟨r, acc⟩] acc chunks = [⟨r, acc ++ joinFrags chunks⟩] := by
  induction chunks with
  | nil =>
      intro r acc
      simp [applyStreamFirst, joinFrags, String.append_empty]
  | cons c rest ih =>
      intro r acc
      simp only [applyStreamFirst, setFirstText, joinFrags]
      have h := ih r (acc ++ c)
      simp only [h, String.append_assoc]

/-- The persistence effect never changes the message list. -/
theorem persistChatHistory_messages (s : AppComponent) :
    (persistChatHistory s).messages = s.messages := by
  unfold persistChatHistory
  split <;> rfl

/-- The persistence effect never changes the chat error. -/
theorem persistChatHistory_error (s : AppComponent) :
    (persistChatHistory s).error = s.error := by
  unfold persistChatHistory
  split <;> rfl

/-- C1: for every finite sequence of streamed fragments received by a
successful sendMessage, the message log gains the user message and the
placeholder model message, and the final text of the placeholder is the
concatenation of the fragments in receipt order. -/
theorem sendMessage_stream_concat (s : AppComponent) (chunks : List String)
    (hInput : jsTrim s.userInput ≠ ("")) (hLoad : s.isLoading = false) :
    (sendMessage s (ChatStreamOutcome.ok chunks)).messages =
      s.messages ++ [⟨Role.user, s.userInput⟩, ⟨Role.model, joinFrags chunks⟩] := by
  have hcond : ¬(jsTrim s.userInput = ("") ∨ s.isLoading = true) := by
    intro h
    rcases h with h | h
    · exact hInput h
    · rw [hLoad] at h
      cases h
  unfold sendMessage
  rw [if_neg hcond]
  simp only [persistChatHistory_messages]
  have h := applyStream_append chunks (s.messages ++ [⟨Role.user, s.userInput⟩]) Role.model ("")
  rw [h, str_empty_append]
  simp

/-- C1 witness: the scenario fragments Hi, space-there, bang yield the stored
message text Hi there. -/
theorem sendMessage_stream_concat_witness :
    (sendMessage chatReady (ChatStreamOutcome.ok [("Hi"), (" there"), ("!")])).messages =
      [⟨Role.model, ("Welcome")⟩, ⟨Role.user, ("Hello")⟩, ⟨Role.model, ("Hi there!")⟩] := by
  have h := sendMessage_stream_concat chatReady [("Hi"), (" there"), ("!")] (by decide) rfl
  exact h.trans (by decide)

/-- C9: when the loading flag is set, or the current input trims to the empty
string, sendMessage returns with the whole component state unchanged. -/
theorem sendMessage_guard_noop (s : AppComponent) (outcome : ChatStreamOutcome)
    (h : s.isLoading = true ∨ jsTrim s.userInput = ("")) :
    sendMessage s outcome = s := by
  unfold sendMessage
  rw [if_pos (Or.symm h)]

/-- C9 witness: with the loading flag set, sendMessage leaves the concrete
state untouched. -/
theorem sendMessage_guard_noop_witness :
    sendMessage { chatReady with isLoading := true } (ChatStreamOutcome.ok [("x")]) =
      { chatReady with isLoading := true } :=
  sendMessage_guard_noop { chatReady with isLoading := true }
    (ChatStreamOutcome.ok [("x")]) (Or.inl rfl)

/-- C10: submitAnswer with no selected answer is a no-op on the whole
component state. -/
theorem submitAnswer_no_selection_noop (s : AppComponent) (gw : Except String TestResult)
    (h : s.selectedAnswer = none) :
    submitAnswer s gw = s := by
  unfold submitAnswer
  rw [h]

/-- C10 witness: on a concrete taking state with no selection, submitAnswer
changes nothing. -/
theorem submitAnswer_no_selection_noop_witness :
    submitAnswer placementStart (Except.error ("boom")) = placementStart :=
  submitAnswer_no_selection_noop placementStart (Except.error ("boom")) rfl

/-- The persistence effect never changes the loading flag. -/
theorem persistChatHistory_isLoading (s : AppComponent) :
    (persistChatHistory s).isLoading = s.isLoading := by
  unfold persistChatHistory
  split <;> rfl

/-- The persistence effect never changes the session counter. -/
theorem persistChatHistory_sessions (s : AppComponent) :
    (persistChatHistory s).chatSessionsCreated = s.chatSessionsCreated := by
  unfold persistChatHistory
  split <;> rfl

/-- C4: when the gateway call of evaluateTest fails, the placement flow
reverts to the taking sub-state, the home error banner is set, and the
collected answers, the questions and the question index are unchanged. -/
theorem evaluateTest_failure_reverts (s : AppComponent) (m : String) :
    (evaluateTest s (Except.error m)).placementTestState = PlacementTestState.taking ∧
    (evaluateTest s (Except.error m)).homeError =
      some (("Failed to get response from AI. ") ++ m) ∧
    (evaluateTest s (Except.error m)).userAnswers = s.userAnswers ∧
    (evaluateTest s (Except.error m)).testQuestions = s.testQuestions ∧
    (evaluateTest s (Except.error m)).currentQuestionIndex = s.currentQuestionIndex :=
  ⟨rfl, rfl, rfl, rfl, rfl⟩

/-- C7: when evaluation succeeds, the stored level is one of the three
levels, never null; it is written to the englishLevel signal and to storage,
and the placement flow enters the results sub-state. -/
theorem evaluateTest_success_level (s : AppComponent) (r : TestResult) :
    (evaluateTest s (Except.ok r)).englishLevel = some r.level ∧
    (evaluateTest s (Except.ok r)).englishLevel ≠ none ∧
    (evaluateTest s (Except.ok r)).storedEnglishLevel = some r.level ∧
    (evaluateTest s (Except.ok r)).placementTestState = PlacementTestState.results ∧
    (r.level = EnglishLevel.Beginner ∨ r.level = EnglishLevel.Intermediate ∨
      r.level = EnglishLevel.Advanced) := by
  refine ⟨rfl, ?_, rfl, rfl, ?_⟩
  · have h : (evaluateTest s (Except.ok r)).englishLevel = some r.level := rfl
    rw [h]
    simp
  · cases hl : r.level <;> simp

/-- C8: once the current answer is checked, selectVocabularyAnswer is a
no-op; a second selection never changes the stored selection; an unchecked
selection stores the answer and locks; and advancing before the last question
releases the lock while recording exactly one answer for the question. -/
theorem selectVocabularyAnswer_lock (s : AppComponent) (a b : String)
    (fo : Except String String) :
    (s.isAnswerChecked = true → selectVocabularyAnswer s a = s) ∧
    selectVocabularyAnswer (selectVocabularyAnswer s a) b = selectVocabularyAnswer s a ∧
    (s.isAnswerChecked = false →
      (selectVocabularyAnswer s a).selectedVocabularyAnswer = some a ∧
      (selectVocabularyAnswer s a).isAnswerChecked = true) ∧
    (s.currentVocabularyQuestionIndex < s.vocabularyQuestions.length - 1 →
      (nextVocabularyQuestion s fo).isAnswerChecked = false ∧
      (nextVocabularyQuestion s fo).selectedVocabularyAnswer = none ∧
      (nextVocabularyQuestion s fo).userVocabularyAnswers =
        s.userVocabularyAnswers ++ [s.selectedVocabularyAnswer]) := by
  refine ⟨?_, ?_, ?_, ?_⟩
  · intro h
    unfold selectVocabularyAnswer
    rw [if_pos h]
  · by_cases h : s.isAnswerChecked = true
    · unfold selectVocabularyAnswer
      rw [if_pos h, if_pos h]
    · unfold selectVocabularyAnswer
      rw [if_neg h, if_pos rfl]
  · intro h
    unfold selectVocabularyAnswer
    rw [if_neg (by rw [h]; simp)]
    exact ⟨rfl, rfl⟩
  · intro h
    unfold nextVocabularyQuestion
    rw [if_pos h]
    exact ⟨rfl, rfl, rfl⟩

/-- C8 witness: on a concrete unchecked state the second selection is
ignored, and advancing releases the lock. -/
theorem selectVocabularyAnswer_lock_witness :
    (vocabEnd.isAnswerChecked = true → selectVocabularyAnswer vocabEnd ("a1") = vocabEnd) ∧
    selectVocabularyAnswer (selectVocabularyAnswer vocabEnd ("a1")) ("b1") =
      selectVocabularyAnswer vocabEnd ("a1") ∧
    (vocabEnd.isAnswerChecked = false →
      (selectVocabularyAnswer vocabEnd ("a1")).selectedVocabularyAnswer = some ("a1") ∧
      (selectVocabularyAnswer vocabEnd ("a1")).isAnswerChecked = true) ∧
    (vocabEnd.currentVocabularyQuestionIndex < vocabEnd.vocabularyQuestions.length - 1 →
      (nextVocabularyQuestion vocabEnd (Except.ok ("fine"))).isAnswerChecked = false ∧
      (nextVocabularyQuestion vocabEnd (Except.ok ("fine"))).selectedVocabularyAnswer = none ∧
      (nextVocabularyQuestion vocabEnd (Except.ok ("fine"))).userVocabularyAnswers =
        vocabEnd.userVocabularyAnswers ++ [vocabEnd.selectedVocabularyAnswer]) :=
  selectVocabularyAnswer_lock vocabEnd ("a1") ("b1") (Except.ok ("fine"))

/-- C6: a confirmed clearChat hands the chat initialization a state whose
message log is empty and whose persisted chatHistory entry is removed, so the
new session never starts from the old persisted copy: its message log is the
freshly streamed greeting, independent of the previous log and storage, and
exactly one new session is created. -/
theorem clearChat_confirmed_fresh_session (s : AppComponent) (g : List String)
    (hk : s.apiKeyConfigured = true) :
    clearChat s true g = initChat { s with messages := [], storedChatHistory := none } g ∧
    (clearChat s true g).messages = [⟨Role.model, joinFrags g⟩] ∧
    (clearChat s true g).chatSessionsCreated = s.chatSessionsCreated + 1 := by
  refine ⟨rfl, ?_, ?_⟩
  · show (initChat { s with messages := [], storedChatHistory := none } g).messages = _
    unfold initChat
    rw [if_neg (by simp [hk])]
    simp only [persistChatHistory_messages]
    have h := applyStreamFirst_singleton g Role.model ("")
    rw [h, str_empty_append]
  · show (initChat { s with messages := [], storedChatHistory := none } g).chatSessionsCreated = _
    unfold initChat
    rw [if_neg (by simp [hk])]
    simp only [persistChatHistory_sessions]

/-- C6 witness: clearing the concrete chat state and re-initializing with a
concrete greeting stream yields exactly the greeting as the whole log. -/
theorem clearChat_confirmed_fresh_session_witness :
    clearChat chatReady true [("Hi "), ("Lena!")] =
      initChat { chatReady with messages := [], storedChatHistory := none } [("Hi "), ("Lena!")] ∧
    (clearChat chatReady true [("Hi "), ("Lena!")]).messages = [⟨Role.model, ("Hi Lena!")⟩] ∧
    (clearChat chatReady true [("Hi "), ("Lena!")]).chatSessionsCreated =
      chatReady.chatSessionsCreated + 1 := by
  have h := clearChat_confirmed_fresh_session chatReady [("Hi "), ("Lena!")] rfl
  refine ⟨h.1, h.2.1.trans (by decide), h.2.2⟩

/-- The chat-context handleError keeps exactly the messages with non-empty
text, in their original order. -/
theorem filter_nonempty_self (l : List Message) (h : ∀ msg ∈ l, msg.text ≠ ("")) :
    l.filter (fun m => m.text != ("")) = l := by
  refine List.filter_eq_self.mpr ?_
  intro msg hm
  simpa using h msg hm

/-- C5: when the streaming request of sendMessage fails after delivering a
prefix of fragments, the chat error is set, the loading flag is cleared, and
the message log keeps exactly the messages with non-empty text: the prior
history and the just-appended user message survive unchanged and in order,
and the placeholder survives only if it already received non-empty text. -/
theorem sendMessage_failure_strips_empty (s : AppComponent) (chunks : List String) (m : String)
    (hAll : ∀ msg ∈ s.messages, msg.text ≠ (""))
    (hInput : jsTrim s.userInput ≠ ("")) (hLoad : s.isLoading = false) :
    (sendMessage s (ChatStreamOutcome.errDuring chunks m)).error =
      some (("Failed to get response from AI. ") ++ m) ∧
    (sendMessage s (ChatStreamOutcome.errDuring chunks m)).messages =
      s.messages ++ [⟨Role.user, s.userInput⟩] ++
        (if joinFrags chunks = ("") then [] else [⟨Role.model, joinFrags chunks⟩]) ∧
    (sendMessage s (ChatStreamOutcome.errDuring chunks m)).isLoading = false := by
  have hcond : ¬(jsTrim s.userInput = ("") ∨ s.isLoading = true) := by
    intro h
    rcases h with h | h
    · exact hInput h
    · rw [hLoad] at h
      cases h
  have hne : s.userInput ≠ ("") := by
    intro h
    apply hInput
    rw [h]
    rfl
  have happ := applyStream_append chunks (s.messages ++ [⟨Role.user, s.userInput⟩]) Role.model ("")
  unfold sendMessage
  rw [if_neg hcond]
  refine ⟨?_, ?_, ?_⟩
  · simp only [persistChatHistory_error]
    rfl
  · simp only [persistChatHistory_messages]
    show (handleError _ m ErrorContext.chat).messages = _
    unfold handleError
    simp only []
    rw [happ, str_empty_append]
    rw [List.filter_append, List.filter_append]
    rw [filter_nonempty_self s.messages hAll]
    have hu : List.filter (fun m => m.text != ("")) [(⟨Role.user, s.userInput⟩ : Message)] =
        [(⟨Role.user, s.userInput⟩ : Message)] := by
      have hb : (s.userInput != ("")) = true := by simpa using hne
      simp [List.filter, hb]
    rw [hu]
    by_cases hj : joinFrags chunks = ("")
    · rw [if_pos hj]
      simp [List.filter, hj]
    · rw [if_neg hj]
      have hb : (joinFrags chunks != ("")) = true := by simpa using hj
      simp [List.filter, hb]
  · simp only [persistChatHistory_isLoading]

/-- C5 witness: a concrete failure after an empty prefix strips exactly the
placeholder and keeps the history and the user message. -/
theorem sendMessage_failure_strips_empty_witness :
    (sendMessage chatReady (ChatStreamOutcome.errDuring [] ("quota"))).error =
      some (("Failed to get response from AI. quota")) ∧
    (sendMessage chatReady (ChatStreamOutcome.errDuring [] ("quota"))).messages =
      chatReady.messages ++ [⟨Role.user, chatReady.userInput⟩] ++
        (if joinFrags [] = ("") then [] else [⟨Role.model, joinFrags []⟩]) ∧
    (sendMessage chatReady (ChatStreamOutcome.errDuring [] ("quota"))).isLoading = false := by
  have h := sendMessage_failure_strips_empty chatReady [] ("quota")
    (by decide) (by decide) rfl
  exact ⟨h.1.trans (by decide), h.2.1, h.2.2⟩

/-- The scoring loop splits every question between the score and the review
list: their sizes always add up to the number of questions. -/
theorem scoreAux_invariant (qs : List VocabularyQuizQuestion) :
    ∀ (answers : List (Option String)) (i : Nat),
      (scoreAux qs answers i).1 + (scoreAux qs answers i).2.length = qs.length := by
  induction qs with
  | nil => intro answers i; rfl
  | cons q rest ih =>
      intro answers i
      have h := ih answers (i + 1)
      simp only [scoreAux]
      by_cases hc : some q.correct_answer = answers.getD i none
      · rw [if_pos hc]
        simp only [List.length_cons]
        omega
      · rw [if_neg hc]
        simp only [List.length_cons]
        omega

/-- Every entry of the review list built by the scoring loop records a
non-matching answer and carries the question text, the correct answer and the
definition of one of the quiz questions. -/
theorem scoreAux_sound (qs : List VocabularyQuizQuestion) :
    ∀ (answers : List (Option String)) (i : Nat) (w : ReviewItem),
      w ∈ (scoreAux qs answers i).2 →
        w.yourAnswer ≠ some w.correctAnswer ∧
        ∃ q ∈ qs, w.question = q.question ∧ w.correctAnswer = q.correct_answer ∧
          w.definition = q.definition := by
  induction qs with
  | nil =>
      intro answers i w hw
      simp [scoreAux] at hw
  | cons q rest ih =>
      intro answers i w hw
      simp only [scoreAux] at hw
      by_cases hc : some q.correct_answer = answers.getD i none
      · rw [if_pos hc] at hw
        obtain ⟨h1, qq, hqq, h2⟩ := ih answers (i + 1) w hw
        exact ⟨h1, qq, List.mem_cons_of_mem _ hqq, h2⟩
      · rw [if_neg hc] at hw
        rcases List.mem_cons.mp hw with hEq | hMem
        · subst hEq
          refine ⟨?_, q, List.mem_cons_self _ _, rfl, rfl, rfl⟩
          intro hcontra
          exact hc hcontra.symm
        · obtain ⟨h1, qq, hqq, h2⟩ := ih answers (i + 1) w hMem
          exact ⟨h1, qq, List.mem_cons_of_mem _ hqq, h2⟩

/-- Every question whose answer does not match the correct answer exactly is
collected by the scoring loop into the review list, together with the given
answer and the definition of the question. -/
theorem scoreAux_complete (qs : List VocabularyQuizQuestion) :
    ∀ (answers : List (Option String)) (i j : Nat), j < qs.length →
      answers.getD (i + j) none ≠ some ((qs.getD j blankVocabQuestion).correct_answer) →
      (⟨(qs.getD j blankVocabQuestion).question, answers.getD (i + j) none,
        (qs.getD j blankVocabQuestion).correct_answer,
        (qs.getD j blankVocabQuestion).definition⟩ : ReviewItem) ∈ (scoreAux qs answers i).2 := by
  induction qs with
  | nil =>
      intro answers i j hj
      simp at hj
  | cons q rest ih =>
      intro answers i j hj hne
      cases j with
      | zero =>
          simp only [List.getD_cons_zero, Nat.add_zero] at hne ⊢
          simp only [scoreAux]
          rw [if_neg (fun hc => hne hc.symm)]
          exact List.mem_cons_self _ _
      | succ j =>
          simp only [List.getD_cons_succ] at hne ⊢
          have hj2 : j < rest.length := by
            simpa [Nat.succ_lt_succ_iff] using hj
          have hidx : i + (j + 1) = (i + 1) + j := by omega
          rw [hidx] at hne ⊢
          have h2 := ih answers (i + 1) j hj2 hne
          simp only [scoreAux]
          by_cases hc : some q.correct_answer = answers.getD i none
          · rw [if_pos hc]
            exact h2
          · rw [if_neg hc]
            exact List.mem_cons_of_mem _ h2

/-- C2: showVocabularyQuizResults always produces a summary whose score plus
the length of the review list equals the total number of questions; every
review entry records a non-matching answer together with the data of one of
the questions, and every question whose answer does not match its correct
answer exactly (including unanswered ones, read as null) appears in the
review list with its definition. -/
theorem showVocabularyQuizResults_invariant (s : AppComponent) (fo : Except String String) :
    ∃ summary, (showVocabularyQuizResults s fo).vocabularyQuizResult = some summary ∧
      summary.score + summary.wordsToReview.length = summary.total ∧
      summary.total = s.vocabularyQuestions.length ∧
      (∀ w ∈ summary.wordsToReview,
        w.yourAnswer ≠ some w.correctAnswer ∧
        ∃ q ∈ s.vocabularyQuestions, w.question = q.question ∧
          w.correctAnswer = q.correct_answer ∧ w.definition = q.definition) ∧
      (∀ j, j < s.vocabularyQuestions.length →
        s.userVocabularyAnswers.getD j none ≠
          some ((s.vocabularyQuestions.getD j blankVocabQuestion).correct_answer) →
        (⟨(s.vocabularyQuestions.getD j blankVocabQuestion).question,
          s.userVocabularyAnswers.getD j none,
          (s.vocabularyQuestions.getD j blankVocabQuestion).correct_answer,
          (s.vocabularyQuestions.getD j blankVocabQuestion).definition⟩ : ReviewItem) ∈
            summary.wordsToReview) := by
  refine ⟨_, rfl, ?_, rfl, ?_, ?_⟩
  · exact scoreAux_invariant s.vocabularyQuestions s.userVocabularyAnswers 0
  · intro w hw
    exact scoreAux_sound s.vocabularyQuestions s.userVocabularyAnswers 0 w hw
  · intro j hj hne
    have h := scoreAux_complete s.vocabularyQuestions s.userVocabularyAnswers 0 j hj
      (by simpa using hne)
    simpa using h

/-- C2 witness: the concrete five-question quiz with three matching answers
yields a summary with score three, total five and two review entries. -/
theorem showVocabularyQuizResults_invariant_witness :
    ∃ summary,
      (showVocabularyQuizResults vocabEnd (Except.ok ("Nice work"))).vocabularyQuizResult =
        some summary ∧
      summary.score + summary.wordsToReview.length = summary.total ∧
      summary.total = vocabEnd.vocabularyQuestions.length ∧
      (∀ w ∈ summary.wordsToReview,
        w.yourAnswer ≠ some w.correctAnswer ∧
        ∃ q ∈ vocabEnd.vocabularyQuestions, w.question = q.question ∧
          w.correctAnswer = q.correct_answer ∧ w.definition = q.definition) ∧
      (∀ j, j < vocabEnd.vocabularyQuestions.length →
        vocabEnd.userVocabularyAnswers.getD j none ≠
          some ((vocabEnd.vocabularyQuestions.getD j blankVocabQuestion).correct_answer) →
        (⟨(vocabEnd.vocabularyQuestions.getD j blankVocabQuestion).question,
          vocabEnd.userVocabularyAnswers.getD j none,
          (vocabEnd.vocabularyQuestions.getD j blankVocabQuestion).correct_answer,
          (vocabEnd.vocabularyQuestions.getD j blankVocabQuestion).definition⟩ : ReviewItem) ∈
            summary.wordsToReview) :=
  showVocabularyQuizResults_invariant vocabEnd (Except.ok ("Nice work"))

/-- The scenario numbers: the concrete quiz result has score three of five
with two words to review. -/
theorem vocabEnd_score_three_of_five :
    (showVocabularyQuizResults vocabEnd (Except.ok ("Nice work"))).vocabularyQuizResult =
      some ⟨3, 5, ("Nice work"),
        [⟨("VQ3"), some ("b3"), ("a3"), ("def3")⟩,
         ⟨("VQ5"), none, ("a5"), ("def5")⟩]⟩ := by
  decide

/-- Reading a list at the length of a known prefix returns the element that
follows the prefix. -/
theorem getD_append_length {α : Type} (pre : List α) (x : α) (l : List α) (d : α) :
    (pre ++ x :: l).getD pre.length d = x := by
  induction pre with
  | nil => rfl
  | cons a pre ih => simpa [List.getD_cons_succ] using ih

/-- When one answer is recorded per question, the payload built by the
index-carrying map is the in-order pairing of the questions with the
answers. -/
theorem qaAux_map_some (qs : List QuizQuestion) :
    ∀ (ans : List String) (pre : List (Option String)), ans.length = qs.length →
      qaAux qs (pre ++ ans.map some) pre.length =
        List.zipWith (fun q a => QAPair.mk q.question q.correct_answer (some a)) qs ans := by
  induction qs with
  | nil =>
      intro ans pre h
      have hnil : ans = [] := List.eq_nil_of_length_eq_zero h
      subst hnil
      rfl
  | cons q rest ih =>
      intro ans pre h
      cases ans with
      | nil => simp at h
      | cons a ans2 =>
          have hlen : ans2.length = rest.length := by simpa using h
          have hhead := getD_append_length pre (some a) (ans2.map some) none
          simp only [qaAux, List.map_cons, List.zipWith_cons_cons]
          rw [hhead]
          have e1 : pre ++ some a :: ans2.map some = (pre ++ [some a]) ++ ans2.map some := by
            simp
          have e2 : pre.length + 1 = (pre ++ [some a]).length := by
            simp
          rw [e1, e2, ih ans2 (pre ++ [some a]) hlen]

/-- Both gateway outcomes of evaluateTest append exactly one request to the
trace, tagged with the evaluating sub-state and carrying the payload built
from the questions and answers, and neither outcome changes the questions or
the collected answers. -/
theorem evaluateTest_trace (s : AppComponent) (gw : Except String TestResult) :
    (evaluateTest s gw).sentEvalRequests =
        s.sentEvalRequests ++
          [⟨PlacementTestState.evaluating, questionsAndAnswers s.testQuestions s.userAnswers⟩] ∧
    (evaluateTest s gw).userAnswers = s.userAnswers ∧
    (evaluateTest s gw).testQuestions = s.testQuestions := by
  cases gw <;> exact ⟨rfl, rfl, rfl⟩

/-- Running the taking loop over a non-empty list of non-blank answers whose
length matches the remaining questions appends the answers in order and sends
exactly one evaluation request, built from the questions and the completed
answer list, while in the evaluating sub-state. -/
theorem runPlacement_spec (gw : Except String TestResult) :
    ∀ (ans : List String) (s : AppComponent), ans ≠ [] → (∀ a ∈ ans, a ≠ ("")) →
      s.currentQuestionIndex + ans.length = s.testQuestions.length →
      (runPlacement gw s ans).sentEvalRequests =
          s.sentEvalRequests ++
            [⟨PlacementTestState.evaluating,
              questionsAndAnswers s.testQuestions (s.userAnswers ++ ans.map some)⟩] ∧
      (runPlacement gw s ans).userAnswers = s.userAnswers ++ ans.map some ∧
      (runPlacement gw s ans).testQuestions = s.testQuestions := by
  intro ans
  induction ans with
  | nil => intro s h; cases h rfl
  | cons a rest ih =>
      intro s hne hblank hlen
      have ha : a ≠ ("") := hblank a (List.mem_cons_self a rest)
      simp only [List.length_cons, List.length_nil] at hlen
      by_cases hrest : rest = []
      · subst hrest
        simp only [List.length_nil] at hlen
        have hstep : runPlacement gw s [a] = evaluateTest
            { s with userAnswers := s.userAnswers ++ [some a], selectedAnswer := some a } gw := by
          simp only [runPlacement]
          unfold submitAnswer selectAnswer
          simp only []
          rw [if_neg ha]
          rw [if_neg (show ¬(s.currentQuestionIndex < s.testQuestions.length - 1) by omega)]
        rw [hstep]
        obtain ⟨h1, h2, h3⟩ := evaluateTest_trace
          { s with userAnswers := s.userAnswers ++ [some a], selectedAnswer := some a } gw
        refine ⟨?_, ?_, ?_⟩
        · rw [h1]
          simp
        · rw [h2]
          simp
        · rw [h3]
      · have hr1 : 0 < rest.length := List.length_pos.mpr hrest
        have hstep : submitAnswer (selectAnswer s a) gw =
            { s with userAnswers := s.userAnswers ++ [some a],
                     currentQuestionIndex := s.currentQuestionIndex + 1,
                     selectedAnswer := none } := by
          unfold submitAnswer selectAnswer
          simp only []
          rw [if_neg ha]
          rw [if_pos (show s.currentQuestionIndex < s.testQuestions.length - 1 by omega)]
        have hrec := ih { s with userAnswers := s.userAnswers ++ [some a],
                                 currentQuestionIndex := s.currentQuestionIndex + 1,
                                 selectedAnswer := none }
          hrest (fun x hx => hblank x (List.mem_cons_of_mem a hx)) (by simp only []; omega)
        obtain ⟨h1, h2, h3⟩ := hrec
        simp only [runPlacement, hstep]
        refine ⟨?_, ?_, ?_⟩
        · rw [h1]
          simp [List.append_assoc]
        · rw [h2]
          simp [List.append_assoc]
        · rw [h3]

/-- C3: starting the taking sub-state at question zero with no collected
answers, answering each question once with a non-blank answer records the
answers in order, one per question, and on the last answer triggers
evaluation: exactly one request is sent, while in the evaluating sub-state,
containing one question, correct answer and user answer triple per test
question in the original question order. -/
theorem runPlacement_single_request (gw : Except String TestResult) (qs : List QuizQuestion)
    (ans : List String) (s0 : AppComponent)
    (hq : s0.testQuestions = qs) (hu : s0.userAnswers = []) (hi : s0.currentQuestionIndex = 0)
    (hr : s0.sentEvalRequests = []) (hlen : ans.length = qs.length) (hne : ans ≠ [])
    (hblank : ∀ a ∈ ans, a ≠ ("")) :
    (runPlacement gw s0 ans).userAnswers = ans.map some ∧
    (runPlacement gw s0 ans).sentEvalRequests =
      [⟨PlacementTestState.evaluating,
        List.zipWith (fun q a => QAPair.mk q.question q.correct_answer (some a)) qs ans⟩] := by
  obtain ⟨h1, h2, h3⟩ := runPlacement_spec gw ans s0 hne hblank (by rw [hi, hq, hlen]; omega)
  constructor
  · rw [h2, hu]
    simp
  · rw [h1, hr, hq, hu]
    have hz := qaAux_map_some qs ans [] hlen
    simp only [List.nil_append, List.length_nil] at hz
    simp only [List.nil_append, questionsAndAnswers, hz]

/-- C3 witness: the scenario run over the five sample questions, answering
the B option everywhere, records the five answers in order and sends one
request with the five triples in question order. -/
theorem runPlacement_single_request_witness :
    (runPlacement (Except.ok ⟨EnglishLevel.Intermediate, ("Nice")⟩)
        placementStart answersB).userAnswers = answersB.map some ∧
    (runPlacement (Except.ok ⟨EnglishLevel.Intermediate, ("Nice")⟩)
        placementStart answersB).sentEvalRequests =
      [⟨PlacementTestState.evaluating,
        List.zipWith (fun q a => QAPair.mk q.question q.correct_answer (some a))
          sampleQuestions answersB⟩] :=
  runPlacement_single_request (Except.ok ⟨EnglishLevel.Intermediate, ("Nice")⟩)
    sampleQuestions answersB placementStart rfl rfl rfl rfl rfl (by decide) (by decide)
